import Mathlib

/-!
Verification of the go-nms poll–dispatch–collect–alert pipeline.

Go strings are modelled as `List Char` (`GoStr`); Go `float64` values are
modelled as exact rationals `ℚ`; Go machine integers are modelled as `Int`
with explicit wrapping where a conversion can overflow.  Fallible Go calls
are modelled with `Except`/`Option`.
-/

/-- Go strings, modelled as lists of characters. -/
abbrev GoStr := List Char

/-- Boolean leading-segment test on character lists (does the second list start with the first). -/
def isPre : GoStr → GoStr → Bool
  | [], _ => true
  | _ :: _, [] => false
  | c :: cs, d :: ds => c = d && isPre cs ds

/-- Model of the Go strings trim-leading operation: drop `pre` when `s`
starts with it, otherwise return `s` unchanged. -/
def trimPre (s pre : GoStr) : GoStr :=
  if isPre pre s then s.drop pre.length else s

/-- Model of Go `strings.Split(s, ".")`: split on every dot; the empty string
splits to one empty component, matching Go. -/
def splitDots : GoStr → List GoStr
  | [] => [[]]
  | c :: rest =>
    let groups := splitDots rest
    if c = '.' then [] :: groups
    else
      match groups with
      | [] => [[c]]
      | g :: gs => (c :: g) :: gs

/-- Whitespace characters skipped by Go's `fmt` scanner. -/
def isWhite (c : Char) : Bool :=
  c = ' ' || c = '\t' || c = '\n' || c = '\r' || c = Char.ofNat 11 || c = Char.ofNat 12

/-- Decimal value of a digit list. -/
def digitsVal (ds : List Char) : Nat :=
  ds.foldl (fun acc c => acc * 10 + (c.toNat - '0'.toNat)) 0

/-- Model of Go `fmt.Sscanf(s, "%d", &i)`: skip leading whitespace, read an
optional sign and a non-empty run of decimal digits, reject values outside
the 64-bit signed range; trailing characters are left unread (not an error). -/
def scanInt (s : GoStr) : Option Int :=
  let s1 := s.dropWhile (fun c => isWhite c)
  let signed : Bool × GoStr :=
    match s1 with
    | '-' :: rest => (true, rest)
    | '+' :: rest => (false, rest)
    | _ => (false, s1)
  let ds := signed.2.takeWhile (fun c => c.isDigit)
  if ds.isEmpty then none
  else
    let mag : Int := Int.ofNat (digitsVal ds)
    let v : Int := if signed.1 then -mag else mag
    if v < -(2 ^ 63) ∨ 2 ^ 63 ≤ v then none
    else some v

/-- Model of `extractLastOIDIndex` from
`internal/worker/protocols/snmp/zte/client.go`: normalise both OIDs by
stripping one leading dot, require `oid` to start with `baseOID ++ "."`,
and parse the last dot-separated component of the remaining suffix. -/
def extractLastOIDIndex (oid baseOID : GoStr) : Int :=
  let oid1 := trimPre oid ['.']
  let base1 := trimPre baseOID ['.']
  let suffix := trimPre oid1 (base1 ++ ['.'])
  if suffix = oid1 then -1
  else
    let parts := splitDots suffix
    match parts.getLast? with
    | none => -1
    | some lastPart =>
      match scanInt lastPart with
      | none => -1
      | some v => v

/-- Restatement of the spec's description of `extractLastOIDIndex`: after
stripping one leading dot from each argument, if the OID literally starts
with `base ++ "."` the result is the parsed last component of the rest,
otherwise (or if parsing fails) the result is `-1`. -/
def extractLastOIDIndexSpec (oid baseOID : GoStr) : Int :=
  let o := trimPre oid ['.']
  let b := trimPre baseOID ['.']
  if isPre (b ++ ['.']) o then
    match scanInt ((splitDots (o.drop (b.length + 1))).getLastD []) with
    | some v => v
    | none => -1
  else -1

theorem isPre_length_le {p s : GoStr} (h : isPre p s = true) : p.length ≤ s.length := by
  induction p generalizing s with
  | nil => simp
  | cons c cs ih =>
    cases s with
    | nil => simp [isPre] at h
    | cons d ds =>
      simp only [isPre, Bool.and_eq_true] at h
      simpa using ih h.2

theorem drop_length_ne {p s : GoStr} (hp : p ≠ []) (h : isPre p s = true) :
    s.drop p.length ≠ s := by
  have hle := isPre_length_le h
  intro heq
  have hlen := congrArg List.length heq
  rw [List.length_drop] at hlen
  have hppos : 0 < p.length := List.length_pos.mpr hp
  cases s with
  | nil =>
    cases p with
    | nil => exact hp rfl
    | cons c cs => simp [isPre] at h
  | cons d ds =>
    omega

theorem splitDots_ne_nil (s : GoStr) : splitDots s ≠ [] := by
  cases s with
  | nil => simp [splitDots]
  | cons c rest =>
    simp only [splitDots]
    split
    · simp
    · split
      · simp
      · simp

theorem trimPre_of_isPre {s pre : GoStr} (h : isPre pre s = true) :
    trimPre s pre = s.drop pre.length := by
  simp [trimPre, h]

theorem trimPre_of_not_isPre {s pre : GoStr} (h : isPre pre s = false) :
    trimPre s pre = s := by
  simp [trimPre, h]

/-- C7: for every `oid` and `baseOID`, `extractLastOIDIndex` strips one
leading dot from each, returns the last dot-separated component of the
remaining suffix parsed as an integer when the stripped `oid` starts with
the stripped `baseOID ++ "."`, and returns `-1` otherwise or when the last
component does not parse as an integer; in particular the spec's example
OID pair yields `3` and a non-matching base yields `-1`. -/
theorem extractLastOIDIndex_correct :
    (∀ oid baseOID : GoStr,
      extractLastOIDIndex oid baseOID = extractLastOIDIndexSpec oid baseOID) ∧
    extractLastOIDIndex "1.3.6.1.4.1.X.1.2.1.1.3".toList "1.3.6.1.4.1.X.1.2.1.1".toList = 3 ∧
    extractLastOIDIndex "1.3.6.1.4.1.X.1.2.1.1.3".toList "9.9.9".toList = -1 ∧
    extractLastOIDIndex "1.3.6.1.4.1.X.1.2.1.1.abc".toList "1.3.6.1.4.1.X.1.2.1.1".toList = -1 := by
  refine ⟨?_, by decide, by decide, by decide⟩
  intro oid baseOID
  unfold extractLastOIDIndex extractLastOIDIndexSpec
  set o := trimPre oid ['.'] with ho
  set b := trimPre baseOID ['.'] with hb
  by_cases hpre : isPre (b ++ ['.']) o = true
  · have hne : b ++ ['.'] ≠ [] := by simp
    have hdrop := trimPre_of_isPre hpre
    have hdne := drop_length_ne hne hpre
    simp only [hdrop, hpre, if_true]
    rw [if_neg hdne]
    have hlen : (b ++ ['.']).length = b.length + 1 := by simp
    rw [hlen]
    rcases hlast : (splitDots (o.drop (b.length + 1))).getLast? with _ | lastPart
    · exact absurd (List.getLast?_eq_none_iff.mp hlast) (splitDots_ne_nil _)
    · have : (splitDots (o.drop (b.length + 1))).getLastD [] = lastPart := by
        simp [List.getLastD_eq_getLast?, hlast]
      rw [this]
      cases hscan : scanInt lastPart <;> simp [hscan]
  · have hfalse : isPre (b ++ ['.']) o = false := by
      cases hv : isPre (b ++ ['.']) o with
      | false => rfl
      | true => exact absurd hv hpre
    have heq := trimPre_of_not_isPre hfalse
    simp only [heq, hfalse]
    simp

/-- Dynamic value carried by a gosnmp PDU, tagged with its Go runtime type. -/
inductive GoVal where
  | gint (v : Int)
  | gint64 (v : Int)
  | guint (v : Nat)
  | guint32 (v : Nat)
  | guint64 (v : Nat)
  | gbytes (s : GoStr)
  | gother
deriving DecidableEq

/-- An SNMP PDU: an OID name and a dynamically typed value. -/
structure SnmpPDU where
  name : GoStr
  value : GoVal
deriving DecidableEq

/-- Wrap an unbounded integer into the two's-complement `int64` range,
modelling Go conversions and arithmetic on 64-bit machine integers. -/
def wrapInt64 (n : Int) : Int :=
  (n + 2 ^ 63) % 2 ^ 64 - 2 ^ 63

/-- Model of `pduToInt` from `zte/client.go`: extract an `int` from the PDU's
dynamic value; unhandled types yield `0`. -/
def pduToInt : GoVal → Int
  | .gint v => v
  | .guint v => wrapInt64 (Int.ofNat v)
  | .guint32 v => Int.ofNat (v % 2 ^ 32)
  | .guint64 v => wrapInt64 (Int.ofNat v)
  | .gint64 v => v
  | _ => 0

/-- Model of `pduToUint32` from `zte/client.go`: extract a `uint32`
(for TimeTicks); unhandled types — including `int64`/`uint64` — yield `0`. -/
def pduToUint32 : GoVal → Nat
  | .guint32 v => v % 2 ^ 32
  | .guint v => v % 2 ^ 32
  | .gint v => (v % 2 ^ 32).toNat
  | _ => 0

/-- OID constant `OIDSysDescr` from the zte package. -/
def OIDSysDescr : GoStr := "1.3.6.1.2.1.1.1.0".toList

/-- OID constant `OIDSysUpTime` from the zte package. -/
def OIDSysUpTime : GoStr := "1.3.6.1.2.1.1.3.0".toList

/-- OID constant `OIDSysName` from the zte package. -/
def OIDSysName : GoStr := "1.3.6.1.2.1.1.5.0".toList

/-- OID constant `OIDZTECardCPUUsage` from the zte package. -/
def OIDZTECardCPUUsage : GoStr := "1.3.6.1.4.1.3902.1015.2.1.1.3.1.9.1.1".toList

/-- OID constant `OIDZTECardTemperature` from the zte package. -/
def OIDZTECardTemperature : GoStr := "1.3.6.1.4.1.3902.1015.2.1.1.3.1.8.1.1".toList

/-- OID constant `OIDZTECardMemoryUsage` from the zte package. -/
def OIDZTECardMemoryUsage : GoStr := "1.3.6.1.4.1.3902.1015.2.1.1.3.1.11.1.1".toList

/-- OID constant `OIDZTECardMemoryTotal` from the zte package. -/
def OIDZTECardMemoryTotal : GoStr := "1.3.6.1.4.1.3902.1015.2.1.1.3.1.19.1.1".toList

/-- OID constant `OIDZTEPONPortAdminStatus` from the zte package. -/
def OIDZTEPONPortAdminStatus : GoStr := "1.3.6.1.4.1.3902.1015.3.1.2.1.3".toList

/-- OID constant `OIDZTEPONPortOperStatus` from the zte package. -/
def OIDZTEPONPortOperStatus : GoStr := "1.3.6.1.4.1.3902.1015.3.1.2.1.4".toList

/-- OID constant `OIDZTEPONPortTxPower` from the zte package. -/
def OIDZTEPONPortTxPower : GoStr := "1.3.6.1.4.1.3902.1015.3.1.3.1.12".toList

/-- OID constant `OIDZTEPONPortRxPower` from the zte package. -/
def OIDZTEPONPortRxPower : GoStr := "1.3.6.1.4.1.3902.1015.3.1.3.1.10".toList

/-- OID constant `OIDZTEPONPortONTCount` from the zte package. -/
def OIDZTEPONPortONTCount : GoStr := "1.3.6.1.4.1.3902.1015.3.1.3.1.13".toList

/-- OID constant `OIDZTEONTOperStatus` from the zte package. -/
def OIDZTEONTOperStatus : GoStr := "1.3.6.1.4.1.3902.1015.3.1.13.1.3".toList

/-- OID constant `OIDZTEONTDistance` from the zte package. -/
def OIDZTEONTDistance : GoStr := "1.3.6.1.4.1.3902.1015.3.1.13.1.4".toList

/-- OID constant `OIDZTEONTRxPower` from the zte package. -/
def OIDZTEONTRxPower : GoStr := "1.3.6.1.4.1.3902.1015.3.1.13.1.5".toList

/-- OID constant `OIDZTEONTTxPower` from the zte package. -/
def OIDZTEONTTxPower : GoStr := "1.3.6.1.4.1.3902.1015.3.1.13.1.6".toList

/-- OID constant `OIDZTEONTSerialNumber` from the zte package. -/
def OIDZTEONTSerialNumber : GoStr := "1.3.6.1.4.1.3902.1015.3.1.13.1.1".toList

/-- Behaviour of the underlying `SNMPClient` during one collection call:
the response to the scalar `Get` and, per base OID, the outcome of a `Walk`
(a transport error or the list of PDUs delivered to the callback). -/
structure SnmpEnv where
  getResult : Except GoStr (List SnmpPDU)
  walkResult : GoStr → Except GoStr (List SnmpPDU)

/-- The `OLTSystemMetrics` record; fields default to Go zero values, as in the
struct literal in `GetSystemMetrics`. -/
structure OLTSystemMetrics where
  deviceID : String
  sysDescr : GoStr := []
  sysName : GoStr := []
  uptimeSeconds : Int := 0
  cpuUsagePercent : ℚ := 0
  memoryTotalKB : Int := 0
  memoryUsedKB : Int := 0
  memoryUsagePercent : ℚ := 0
  temperatureCelsius : ℚ := 0

/-- The scalar-PDU switch in `GetSystemMetrics`: strip a leading dot from
the PDU name and assign the matching field (descriptions only for
OctetString values; uptime in hundredths of seconds divided by 100). -/
def applySystemScalar (m : OLTSystemMetrics) (pdu : SnmpPDU) : OLTSystemMetrics :=
  let name := trimPre pdu.name ['.']
  if name = OIDSysDescr then
    match pdu.value with
    | .gbytes s => { m with sysDescr := s }
    | _ => m
  else if name = OIDSysName then
    match pdu.value with
    | .gbytes s => { m with sysName := s }
    | _ => m
  else if name = OIDSysUpTime then
    { m with uptimeSeconds := (Int.ofNat (pduToUint32 pdu.value)).tdiv 100 }
  else m

/-- Maximum-fold used by the card-table walks: keep the larger of the
accumulator and each walked value. -/
def maxFoldQ (pdus : List SnmpPDU) (x : ℚ) : ℚ :=
  pdus.foldl (fun acc pdu =>
    let val : ℚ := (pduToInt pdu.value : ℚ)
    if acc < val then val else acc) x

/-- Maximum-fold for the memory-total walk: each walked value is converted
from MB to KB (a 64-bit multiply) before the comparison. -/
def maxFoldMemTotal (pdus : List SnmpPDU) (x : Int) : Int :=
  pdus.foldl (fun acc pdu =>
    let val := wrapInt64 (pduToInt pdu.value * 1024)
    if acc < val then val else acc) x

/-- One card-table walk inside `GetSystemMetrics`: the source discards the
walk's error (the `if err != nil` branch is empty) and keeps whatever the
callback accumulated from successful walks. -/
def runSystemWalk (env : SnmpEnv) (oid : GoStr)
    (apply : List SnmpPDU → OLTSystemMetrics → OLTSystemMetrics)
    (m : OLTSystemMetrics) : OLTSystemMetrics :=
  match env.walkResult oid with
  | .error _ => m
  | .ok pdus => apply pdus m

/-- The four card-table walks of `GetSystemMetrics` (CPU, temperature,
memory-used %, memory-total), each reduced by taking the maximum row. -/
def systemWalkPhase (env : SnmpEnv) (m : OLTSystemMetrics) : OLTSystemMetrics :=
  let m1 := runSystemWalk env OIDZTECardCPUUsage
    (fun ps mm => { mm with cpuUsagePercent := maxFoldQ ps mm.cpuUsagePercent }) m
  let m2 := runSystemWalk env OIDZTECardTemperature
    (fun ps mm => { mm with temperatureCelsius := maxFoldQ ps mm.temperatureCelsius }) m1
  let m3 := runSystemWalk env OIDZTECardMemoryUsage
    (fun ps mm => { mm with memoryUsagePercent := maxFoldQ ps mm.memoryUsagePercent }) m2
  runSystemWalk env OIDZTECardMemoryTotal
    (fun ps mm => { mm with memoryTotalKB := maxFoldMemTotal ps mm.memoryTotalKB }) m3

/-- The used-memory derivation at the end of `GetSystemMetrics`: only when
both total and usage percent are positive, set
`MemoryUsedKB = int64(float64(total) * pct / 100)` (the operand is positive,
so Go's truncation coincides with the floor). -/
def systemMemoryPhase (m : OLTSystemMetrics) : OLTSystemMetrics :=
  if 0 < m.memoryTotalKB ∧ 0 < m.memoryUsagePercent then
    { m with memoryUsedKB := ⌊(m.memoryTotalKB : ℚ) * m.memoryUsagePercent / 100⌋ }
  else m

/-- Model of `GetSystemMetrics` from `zte/client.go`: one scalar GET
(aborting with a wrapped error on failure), then the four card-table walks
(whose errors the source ignores), then the used-memory derivation. -/
def GetSystemMetrics (deviceID : String) (env : SnmpEnv) :
    Except GoStr OLTSystemMetrics :=
  match env.getResult with
  | .error e => .error ("failed to get system metrics: ".toList ++ e)
  | .ok pdus =>
    let m0 : OLTSystemMetrics := { deviceID := deviceID }
    let m1 := pdus.foldl applySystemScalar m0
    .ok (systemMemoryPhase (systemWalkPhase env m1))

theorem applySystemScalar_usedKB (m : OLTSystemMetrics) (pdu : SnmpPDU) :
    (applySystemScalar m pdu).memoryUsedKB = m.memoryUsedKB := by
  unfold applySystemScalar
  dsimp only
  repeat' split
  all_goals rfl

theorem foldScalar_usedKB (pdus : List SnmpPDU) (m : OLTSystemMetrics) :
    (pdus.foldl applySystemScalar m).memoryUsedKB = m.memoryUsedKB := by
  induction pdus generalizing m with
  | nil => rfl
  | cons p ps ih => rw [List.foldl_cons, ih, applySystemScalar_usedKB]

theorem systemWalkPhase_usedKB (env : SnmpEnv) (m : OLTSystemMetrics) :
    (systemWalkPhase env m).memoryUsedKB = m.memoryUsedKB := by
  unfold systemWalkPhase runSystemWalk
  repeat' split
  all_goals rfl

theorem systemWalkPhase_uptime (env : SnmpEnv) (m : OLTSystemMetrics) :
    (systemWalkPhase env m).uptimeSeconds = m.uptimeSeconds := by
  unfold systemWalkPhase runSystemWalk
  repeat' split
  all_goals rfl

theorem systemMemoryPhase_uptime (m : OLTSystemMetrics) :
    (systemMemoryPhase m).uptimeSeconds = m.uptimeSeconds := by
  unfold systemMemoryPhase
  split
  all_goals rfl

/-- Concrete SNMP behaviour where the scalar GET succeeds but every card
walk fails with a transport error. -/
def sysEnvWalkFail : SnmpEnv where
  getResult := Except.ok [⟨OIDSysUpTime, GoVal.guint32 360000⟩]
  walkResult := fun _ => Except.error "snmp walk timeout".toList

/-- C1 counterexample: with the GET succeeding and every card-table WALK
failing with a transport error, `GetSystemMetrics` still returns a metrics
record (built from the scalars) instead of aborting with an error, so a
WALK failure does not abort the method. -/
theorem getSystemMetrics_walkFail_returns_ok :
    (GetSystemMetrics "olt-1" sysEnvWalkFail).isOk = true ∧
    (GetSystemMetrics "olt-1" sysEnvWalkFail).toOption.map
      OLTSystemMetrics.uptimeSeconds = some 3600 := by
  constructor
  · rfl
  · rfl

/-- C1 (amended): a GET failure aborts `GetSystemMetrics` with a wrapped
`failed to get system metrics` error, but a card-table WALK failure never
aborts it: whenever the GET succeeds the method returns a metrics record,
whatever the walk outcomes. -/
theorem getSystemMetrics_failure_semantics (d : String) (env : SnmpEnv) :
    (∀ e, env.getResult = Except.error e →
      GetSystemMetrics d env =
        Except.error ("failed to get system metrics: ".toList ++ e)) ∧
    (∀ ps, env.getResult = Except.ok ps → (GetSystemMetrics d env).isOk = true) := by
  constructor
  · intro e he
    simp [GetSystemMetrics, he]
  · intro ps hps
    simp [GetSystemMetrics, hps, Except.isOk, Except.toBool]

/-- Witness for the amended C1 theorem at concrete environments. -/
theorem getSystemMetrics_failure_semantics_witness :
    GetSystemMetrics "olt-1" ⟨Except.error "snmp timeout".toList, fun _ => Except.ok []⟩
      = Except.error ("failed to get system metrics: ".toList ++ "snmp timeout".toList) ∧
    (GetSystemMetrics "olt-1" sysEnvWalkFail).isOk = true :=
  ⟨(getSystemMetrics_failure_semantics "olt-1" _).1 _ rfl,
   (getSystemMetrics_failure_semantics "olt-1" sysEnvWalkFail).2 _ rfl⟩

theorem systemMemoryPhase_total (m : OLTSystemMetrics) :
    (systemMemoryPhase m).memoryTotalKB = m.memoryTotalKB := by
  unfold systemMemoryPhase
  split
  all_goals rfl

theorem systemMemoryPhase_pct (m : OLTSystemMetrics) :
    (systemMemoryPhase m).memoryUsagePercent = m.memoryUsagePercent := by
  unfold systemMemoryPhase
  split
  all_goals rfl

/-- Concrete SNMP behaviour yielding `memory total = 0` and
`memory used percent = 0` (the zero-memory scenario from the unit tests). -/
def sysEnvZeroMemory : SnmpEnv where
  getResult := Except.ok [⟨OIDSysDescr, GoVal.gbytes "ZTE C320 OLT v2.0".toList⟩]
  walkResult := fun oid =>
    if oid = OIDZTECardMemoryTotal then
      Except.ok [⟨OIDZTECardMemoryTotal ++ ".1".toList, GoVal.gint 0⟩]
    else if oid = OIDZTECardMemoryUsage then
      Except.ok [⟨OIDZTECardMemoryUsage ++ ".1".toList, GoVal.gint 0⟩]
    else Except.ok []

/-- C8: every metrics record returned by `GetSystemMetrics` has
`memoryUsedKB = 0` whenever `memoryTotalKB = 0` (no division is attempted),
and when both total and usage percent are positive the used memory is
`total_kb * used_percent / 100` truncated to an integer; in particular the
zero-memory environment yields `total = 0`, `percent = 0`, `used = 0`. -/
theorem getSystemMetrics_memory_used :
    (∀ (d : String) (env : SnmpEnv) (m : OLTSystemMetrics),
      GetSystemMetrics d env = Except.ok m →
      (m.memoryTotalKB = 0 → m.memoryUsedKB = 0) ∧
      (0 < m.memoryTotalKB → 0 < m.memoryUsagePercent →
        m.memoryUsedKB = ⌊(m.memoryTotalKB : ℚ) * m.memoryUsagePercent / 100⌋)) ∧
    (∃ m, GetSystemMetrics "olt-1" sysEnvZeroMemory = Except.ok m ∧
      m.memoryTotalKB = 0 ∧ m.memoryUsagePercent = 0 ∧ m.memoryUsedKB = 0) := by
  constructor
  · intro d env m h
    cases hg : env.getResult with
    | error e => simp [GetSystemMetrics, hg] at h
    | ok ps =>
      rw [GetSystemMetrics] at h
      rw [hg] at h
      simp only [Except.ok.injEq] at h
      set w := systemWalkPhase env
        (List.foldl applySystemScalar { deviceID := d } ps) with hw
      have hwused : w.memoryUsedKB = 0 := by
        rw [hw, systemWalkPhase_usedKB, foldScalar_usedKB]
      by_cases hguard : 0 < w.memoryTotalKB ∧ 0 < w.memoryUsagePercent
      · have hm : m = { w with memoryUsedKB :=
            ⌊(w.memoryTotalKB : ℚ) * w.memoryUsagePercent / 100⌋ } := by
          rw [← h, systemMemoryPhase, if_pos hguard]
        constructor
        · intro h0
          rw [hm] at h0
          simp only at h0
          omega
        · intro _ _
          rw [hm]
      · have hm : m = w := by
          rw [← h, systemMemoryPhase, if_neg hguard]
        constructor
        · intro _
          rw [hm]
          exact hwused
        · intro ht hp
          rw [hm] at ht hp
          exact absurd ⟨ht, hp⟩ hguard
  · exact ⟨_, rfl, rfl, rfl, rfl⟩

/-- Witness for the C8 theorem: its general part applied at the zero-memory
environment. -/
theorem getSystemMetrics_memory_used_witness :
    ∃ m, GetSystemMetrics "olt-8" sysEnvZeroMemory = Except.ok m ∧
      m.memoryUsedKB = 0 := by
  refine ⟨_, rfl, ?_⟩
  exact ((getSystemMetrics_memory_used.1 "olt-8" sysEnvZeroMemory _ rfl).1 rfl)

theorem applySystemScalar_uptimePdu (m : OLTSystemMetrics) (v : GoVal) :
    applySystemScalar m ⟨OIDSysUpTime, v⟩ =
      { m with uptimeSeconds := (Int.ofNat (pduToUint32 v)).tdiv 100 } := by
  unfold applySystemScalar
  dsimp only
  rw [show trimPre OIDSysUpTime ['.'] = OIDSysUpTime from by decide]
  rw [if_neg (by decide), if_neg (by decide), if_pos rfl]

/-- Concrete SNMP behaviour: the GET returns `sysUpTime = 360000` hundredths
of a second and every card walk returns no rows. -/
def sysEnvUptime : SnmpEnv where
  getResult := Except.ok [⟨OIDSysUpTime, GoVal.guint32 360000⟩]
  walkResult := fun _ => Except.ok []

/-- C10: `GetSystemMetrics` converts the sysUpTime scalar from hundredths of
seconds to whole seconds by integer division by 100: for every environment
whose GET returns a single sysUpTime PDU carrying the TimeTicks value `v`,
the returned record has `uptimeSeconds = v / 100`; in particular
`sysUpTime = 360000` yields `uptimeSeconds = 3600`. -/
theorem getSystemMetrics_uptime_conversion :
    (∀ (d : String) (env : SnmpEnv) (v : Nat),
      env.getResult = Except.ok [⟨OIDSysUpTime, GoVal.guint32 v⟩] →
      ∃ m, GetSystemMetrics d env = Except.ok m ∧
        m.uptimeSeconds = (Int.ofNat (v % 2 ^ 32)).tdiv 100) ∧
    (∃ m, GetSystemMetrics "olt-1" sysEnvUptime = Except.ok m ∧
      m.uptimeSeconds = 3600) := by
  constructor
  · intro d env v h
    refine ⟨_, by rw [GetSystemMetrics, h], ?_⟩
    rw [systemMemoryPhase_uptime, systemWalkPhase_uptime]
    rw [List.foldl_cons, List.foldl_nil, applySystemScalar_uptimePdu]
    rfl
  · exact ⟨_, rfl, rfl⟩

/-- Witness for the C10 theorem: its general part applied at the concrete
`sysUpTime = 360000` environment. -/
theorem getSystemMetrics_uptime_conversion_witness :
    ∃ m, GetSystemMetrics "olt-10" sysEnvUptime = Except.ok m ∧
      m.uptimeSeconds = (Int.ofNat (360000 % 2 ^ 32)).tdiv 100 :=
  getSystemMetrics_uptime_conversion.1 "olt-10" sysEnvUptime 360000 rfl

/-- The constant `snmpPowerScale` from the zte package: raw SNMP power values are in
0.1 dBm units and are divided by this to get dBm. -/
def snmpPowerScale : ℚ := 10

/-- The `PONPortMetrics` record (the wall-clock timestamp field is omitted);
unassigned fields default to Go zero values as in the lazily created
record inside `GetPONPortMetrics`. -/
structure PONPortMetrics where
  deviceID : String
  portIndex : Int
  adminStatus : Int := 0
  operStatus : Int := 0
  txPowerDBm : ℚ := 0
  rxPowerDBm : ℚ := 0
  ontCount : Int := 0

instance : Inhabited PONPortMetrics :=
  ⟨{ deviceID := "", portIndex := 0 }⟩

/-- Setter for the PON-port admin-status column walk. -/
def setAdminStatus (pdu : SnmpPDU) (p : PONPortMetrics) : PONPortMetrics :=
  { p with adminStatus := pduToInt pdu.value }

/-- Setter for the PON-port oper-status column walk. -/
def setOperStatus (pdu : SnmpPDU) (p : PONPortMetrics) : PONPortMetrics :=
  { p with operStatus := pduToInt pdu.value }

/-- Setter for the PON-port Tx-power column walk (0.1 dBm units → dBm). -/
def setPONTxPower (pdu : SnmpPDU) (p : PONPortMetrics) : PONPortMetrics :=
  { p with txPowerDBm := (pduToInt pdu.value : ℚ) / snmpPowerScale }

/-- Setter for the PON-port Rx-power column walk (0.1 dBm units → dBm). -/
def setPONRxPower (pdu : SnmpPDU) (p : PONPortMetrics) : PONPortMetrics :=
  { p with rxPowerDBm := (pduToInt pdu.value : ℚ) / snmpPowerScale }

/-- Setter for the PON-port ONT-count column walk. -/
def setONTCount (pdu : SnmpPDU) (p : PONPortMetrics) : PONPortMetrics :=
  { p with ontCount := pduToInt pdu.value }

/-- The body of the `GetPONPortMetrics` walk callback for one PDU: create
the port record lazily on first sight of its index, then apply the
column's setter to the shared record.  The Go map `portsByIndex` is
modelled as an association list in first-insertion order. -/
def applyPortSetter (d : String) (ports : List (Int × PONPortMetrics)) (index : Int)
    (setter : SnmpPDU → PONPortMetrics → PONPortMetrics) (pdu : SnmpPDU) :
    List (Int × PONPortMetrics) :=
  if (ports.lookup index).isSome then
    ports.map (fun kp => if kp.1 = index then (kp.1, setter pdu kp.2) else kp)
  else
    ports ++ [(index, setter pdu { deviceID := d, portIndex := index })]

/-- One PON-port column walk: for each PDU extract the final OID component
as the port index, skip negative indexes, and update the accumulator. -/
def ponWalkFold (d : String) (baseOID : GoStr)
    (setter : SnmpPDU → PONPortMetrics → PONPortMetrics)
    (pdus : List SnmpPDU) (ports : List (Int × PONPortMetrics)) :
    List (Int × PONPortMetrics) :=
  pdus.foldl (fun acc pdu =>
    let index := extractLastOIDIndex pdu.name baseOID
    if index < 0 then acc
    else applyPortSetter d acc index setter pdu) ports

/-- The five PON-port column walks with their setters.  Go iterates the
`walkOIDs` map in unspecified order; the model fixes one order, which is
observationally equivalent because each column writes a distinct field. -/
def ponWalkOrder : List (GoStr × (SnmpPDU → PONPortMetrics → PONPortMetrics)) :=
  [(OIDZTEPONPortAdminStatus, setAdminStatus),
   (OIDZTEPONPortOperStatus, setOperStatus),
   (OIDZTEPONPortTxPower, setPONTxPower),
   (OIDZTEPONPortRxPower, setPONRxPower),
   (OIDZTEPONPortONTCount, setONTCount)]

/-- Run the PON-port column walks in order; a walk error aborts the whole
collection with a wrapped error, discarding the accumulator. -/
def runPONWalks (d : String) (env : SnmpEnv)
    (cols : List (GoStr × (SnmpPDU → PONPortMetrics → PONPortMetrics)))
    (ports : List (Int × PONPortMetrics)) :
    Except GoStr (List (Int × PONPortMetrics)) :=
  match cols with
  | [] => .ok ports
  | (oid, setter) :: rest =>
    match env.walkResult oid with
    | .error e =>
      .error ("failed to walk PON port OID ".toList ++ oid ++ ": ".toList ++ e)
    | .ok pdus => runPONWalks d env rest (ponWalkFold d oid setter pdus ports)

/-- Model of `GetPONPortMetrics` from `zte/client.go`. -/
def GetPONPortMetrics (d : String) (env : SnmpEnv) :
    Except GoStr (List PONPortMetrics) :=
  match runPONWalks d env ponWalkOrder [] with
  | .error e => .error e
  | .ok ports => .ok (ports.map Prod.snd)

theorem runPONWalks_error (d : String) (env : SnmpEnv)
    (cols : List (GoStr × (SnmpPDU → PONPortMetrics → PONPortMetrics)))
    (ports : List (Int × PONPortMetrics))
    (h : ∃ c ∈ cols, (env.walkResult c.1).isOk = false) :
    ∃ e, runPONWalks d env cols ports = Except.error e := by
  induction cols generalizing ports with
  | nil => simp at h
  | cons c rest ih =>
    obtain ⟨oid, setter⟩ := c
    rw [runPONWalks]
    cases hw : env.walkResult oid with
    | error e => exact ⟨_, rfl⟩
    | ok pdus =>
      refine ih _ ?_
      obtain ⟨c', hc', hfail⟩ := h
      rcases List.mem_cons.mp hc' with hhead | htail
      · rw [hhead] at hfail
        simp only at hfail
        rw [hw] at hfail
        simp [Except.isOk, Except.toBool] at hfail
      · exact ⟨c', htail, hfail⟩

/-- C2: whenever any of the five PON-port column WALKs (admin status, oper
status, Tx power, Rx power, ONT count) fails with a transport error,
`GetPONPortMetrics` returns an error and no port list — the accumulated
partial records are discarded, never returned. -/
theorem getPONPortMetrics_walk_error_aborts (d : String) (env : SnmpEnv)
    (h : (env.walkResult OIDZTEPONPortAdminStatus).isOk = false ∨
         (env.walkResult OIDZTEPONPortOperStatus).isOk = false ∨
         (env.walkResult OIDZTEPONPortTxPower).isOk = false ∨
         (env.walkResult OIDZTEPONPortRxPower).isOk = false ∨
         (env.walkResult OIDZTEPONPortONTCount).isOk = false) :
    ∃ e, GetPONPortMetrics d env = Except.error e := by
  have hcol : ∃ c ∈ ponWalkOrder, (env.walkResult c.1).isOk = false := by
    rcases h with h | h | h | h | h
    · exact ⟨(OIDZTEPONPortAdminStatus, setAdminStatus), by simp [ponWalkOrder], h⟩
    · exact ⟨(OIDZTEPONPortOperStatus, setOperStatus), by simp [ponWalkOrder], h⟩
    · exact ⟨(OIDZTEPONPortTxPower, setPONTxPower), by simp [ponWalkOrder], h⟩
    · exact ⟨(OIDZTEPONPortRxPower, setPONRxPower), by simp [ponWalkOrder], h⟩
    · exact ⟨(OIDZTEPONPortONTCount, setONTCount), by simp [ponWalkOrder], h⟩
  obtain ⟨e, he⟩ := runPONWalks_error d env ponWalkOrder [] hcol
  exact ⟨e, by rw [GetPONPortMetrics, he]⟩

/-- Concrete SNMP behaviour where every walk fails with a transport error. -/
def ponEnvWalkFail : SnmpEnv where
  getResult := Except.ok []
  walkResult := fun _ => Except.error "snmp walk timeout".toList

/-- Witness for the C2 theorem at a concrete failing environment. -/
theorem getPONPortMetrics_walk_error_aborts_witness :
    ∃ e, GetPONPortMetrics "olt-2" ponEnvWalkFail = Except.error e :=
  getPONPortMetrics_walk_error_aborts "olt-2" ponEnvWalkFail (Or.inl rfl)

/-- Uppercase hexadecimal digit. -/
def hexDigit (n : Nat) : Char :=
  if n < 10 then Char.ofNat ('0'.toNat + n) else Char.ofNat ('A'.toNat + (n - 10))

/-- Uppercase hexadecimal rendering of a natural number. -/
def natHex (n : Nat) : GoStr :=
  if n < 16 then [hexDigit n]
  else natHex (n / 16) ++ [hexDigit (n % 16)]
decreasing_by exact Nat.div_lt_self (by omega) (by omega)

/-- Model of Go `fmt.Sprintf("%X", v)` on an integer. -/
def intHex (v : Int) : GoStr :=
  if v < 0 then '-' :: natHex (-v).toNat else natHex v.toNat

/-- Decimal digit. -/
def decDigit (n : Nat) : Char :=
  Char.ofNat ('0'.toNat + n)

/-- Decimal rendering of a natural number. -/
def natDec (n : Nat) : GoStr :=
  if n < 10 then [decDigit n]
  else natDec (n / 10) ++ [decDigit (n % 10)]
decreasing_by exact Nat.div_lt_self (by omega) (by omega)

/-- Model of Go `fmt.Sprintf("%d", v)` on an integer. -/
def intDec (v : Int) : GoStr :=
  if v < 0 then '-' :: natDec (-v).toNat else natDec v.toNat

/-- The `ONTMetrics` record (wall-clock timestamp omitted); unassigned fields
default to Go zero values. -/
structure ONTMetrics where
  deviceID : String
  ponPortIndex : Int
  ontIndex : Int
  serialNumber : GoStr
  description : GoStr
  operStatus : Int := 0
  rxPowerDBm : ℚ := 0
  txPowerDBm : ℚ := 0
  distanceMeters : Int := 0

instance : Inhabited ONTMetrics :=
  ⟨{ deviceID := "", ponPortIndex := 0, ontIndex := 0, serialNumber := [],
     description := [] }⟩

/-- The record created on first sight of an ONT index in `GetONTMetrics`:
after the dead heuristic assignments, the source sets both `ponIdx` and
`ontIdx` to the full packed index, synthesizes the serial number as the
uppercase hex of the index, and the description as `ONT-<index>`. -/
def freshONT (d : String) (index : Int) : ONTMetrics :=
  { deviceID := d
    ponPortIndex := index
    ontIndex := index
    serialNumber := intHex index
    description := "ONT-".toList ++ intDec index }

/-- Setter for the ONT oper-status column walk. -/
def setONTOperStatus (pdu : SnmpPDU) (o : ONTMetrics) : ONTMetrics :=
  { o with operStatus := pduToInt pdu.value }

/-- Setter for the ONT Rx-power column walk (0.1 dBm units → dBm). -/
def setONTRxPower (pdu : SnmpPDU) (o : ONTMetrics) : ONTMetrics :=
  { o with rxPowerDBm := (pduToInt pdu.value : ℚ) / snmpPowerScale }

/-- Setter for the ONT Tx-power column walk (0.1 dBm units → dBm). -/
def setONTTxPower (pdu : SnmpPDU) (o : ONTMetrics) : ONTMetrics :=
  { o with txPowerDBm := (pduToInt pdu.value : ℚ) / snmpPowerScale }

/-- Setter for the ONT distance column walk. -/
def setONTDistance (pdu : SnmpPDU) (o : ONTMetrics) : ONTMetrics :=
  { o with distanceMeters := pduToInt pdu.value }

/-- The body of the `GetONTMetrics` walk callback for one PDU.  The Go map
`ontsByKey` is keyed by `fmt.Sprintf("%d", index)`, which is injective on
integers, so the model keys by the integer itself, in first-insertion
order.  The serial-number column's branch applies no setter, which the
caller models by passing the identity setter. -/
def applyONTSetter (d : String) (onts : List (Int × ONTMetrics)) (index : Int)
    (setter : SnmpPDU → ONTMetrics → ONTMetrics) (pdu : SnmpPDU) :
    List (Int × ONTMetrics) :=
  if (onts.lookup index).isSome then
    onts.map (fun kp => if kp.1 = index then (kp.1, setter pdu kp.2) else kp)
  else
    onts ++ [(index, setter pdu (freshONT d index))]

/-- One ONT column walk over its PDUs.  The `ponPortIndex` filter block in
the source is empty (filtering is disabled), so no PDU is ever skipped for
its PON port; only a negative extracted index is skipped. -/
def ontWalkFold (d : String) (baseOID : GoStr)
    (setter : SnmpPDU → ONTMetrics → ONTMetrics)
    (pdus : List SnmpPDU) (onts : List (Int × ONTMetrics)) :
    List (Int × ONTMetrics) :=
  pdus.foldl (fun acc pdu =>
    let index := extractLastOIDIndex pdu.name baseOID
    if index < 0 then acc
    else applyONTSetter d acc index setter pdu) onts

/-- The five ONT column walks; the serial-number column applies no setter. -/
def ontWalkOrder : List (GoStr × (SnmpPDU → ONTMetrics → ONTMetrics)) :=
  [(OIDZTEONTSerialNumber, fun _ o => o),
   (OIDZTEONTOperStatus, setONTOperStatus),
   (OIDZTEONTRxPower, setONTRxPower),
   (OIDZTEONTTxPower, setONTTxPower),
   (OIDZTEONTDistance, setONTDistance)]

/-- Run the ONT column walks in order; a walk error aborts the whole
collection with a wrapped error, discarding the accumulator. -/
def runONTWalks (d : String) (env : SnmpEnv)
    (cols : List (GoStr × (SnmpPDU → ONTMetrics → ONTMetrics)))
    (onts : List (Int × ONTMetrics)) :
    Except GoStr (List (Int × ONTMetrics)) :=
  match cols with
  | [] => .ok onts
  | (oid, setter) :: rest =>
    match env.walkResult oid with
    | .error e =>
      .error ("failed to walk ONT OID ".toList ++ oid ++ ": ".toList ++ e)
    | .ok pdus => runONTWalks d env rest (ontWalkFold d oid setter pdus onts)

/-- Model of `GetONTMetrics` from `zte/client.go`.  The `ponPortIndex`
argument is received but the filter that would use it is disabled in the
source, so the body never reads it. -/
def GetONTMetrics (d : String) (env : SnmpEnv) (ponPortIndex : Int) :
    Except GoStr (List ONTMetrics) :=
  match runONTWalks d env ontWalkOrder [] with
  | .error e => .error e
  | .ok onts => .ok (onts.map Prod.snd)

/-- Model of `GetAllONTMetrics` from `zte/client.go`. -/
def GetAllONTMetrics (d : String) (env : SnmpEnv) :
    Except GoStr (List ONTMetrics) :=
  GetONTMetrics d env 0

/-- The per-entry invariant of the ONT accumulator: a record stored under
key `k` carries `k` as both its PON-port index and its ONT index, and the
uppercase hex of `k` as its serial number. -/
def ontKeyed (kp : Int × ONTMetrics) : Prop :=
  kp.2.ponPortIndex = kp.1 ∧ kp.2.ontIndex = kp.1 ∧ kp.2.serialNumber = intHex kp.1

/-- A setter that leaves the index and serial fields unchanged. -/
def preservesKey (setter : SnmpPDU → ONTMetrics → ONTMetrics) : Prop :=
  ∀ q o, (setter q o).ponPortIndex = o.ponPortIndex ∧
    (setter q o).ontIndex = o.ontIndex ∧
    (setter q o).serialNumber = o.serialNumber

theorem ontWalkOrder_preserves :
    ∀ c ∈ ontWalkOrder, preservesKey c.2 := by
  intro c hc
  simp only [ontWalkOrder, List.mem_cons, List.not_mem_nil, or_false] at hc
  rcases hc with h | h | h | h | h
  all_goals subst h
  all_goals intro q o
  all_goals exact ⟨rfl, rfl, rfl⟩

theorem applyONTSetter_inv (d : String) (onts : List (Int × ONTMetrics))
    (index : Int) (setter : SnmpPDU → ONTMetrics → ONTMetrics) (pdu : SnmpPDU)
    (hset : preservesKey setter) (h : ∀ kp ∈ onts, ontKeyed kp) :
    ∀ kp ∈ applyONTSetter d onts index setter pdu, ontKeyed kp := by
  intro kp hkp
  unfold applyONTSetter at hkp
  split at hkp
  · obtain ⟨kq, hkq, hmap⟩ := List.mem_map.mp hkp
    by_cases he : kq.1 = index
    · rw [if_pos he] at hmap
      obtain ⟨h1, h2, h3⟩ := h kq hkq
      obtain ⟨p1, p2, p3⟩ := hset pdu kq.2
      rw [← hmap]
      exact ⟨by rw [p1, h1], by rw [p2, h2], by rw [p3, h3]⟩
    · rw [if_neg he] at hmap
      rw [← hmap]
      exact h kq hkq
  · rcases List.mem_append.mp hkp with hold | hnew
    · exact h kp hold
    · have : kp = (index, setter pdu (freshONT d index)) := by
        simpa using hnew
      obtain ⟨p1, p2, p3⟩ := hset pdu (freshONT d index)
      rw [this]
      exact ⟨by rw [p1]; rfl, by rw [p2]; rfl, by rw [p3]; rfl⟩

theorem ontWalkFold_inv (d : String) (baseOID : GoStr)
    (setter : SnmpPDU → ONTMetrics → ONTMetrics) (pdus : List SnmpPDU)
    (onts : List (Int × ONTMetrics)) (hset : preservesKey setter)
    (h : ∀ kp ∈ onts, ontKeyed kp) :
    ∀ kp ∈ ontWalkFold d baseOID setter pdus onts, ontKeyed kp := by
  induction pdus generalizing onts with
  | nil => exact h
  | cons p ps ih =>
    simp only [ontWalkFold, List.foldl_cons]
    simp only [ontWalkFold] at ih
    by_cases hidx : extractLastOIDIndex p.name baseOID < 0
    · simp only [if_pos hidx]
      exact ih onts h
    · simp only [if_neg hidx]
      exact ih _ (applyONTSetter_inv d onts _ setter p hset h)

theorem runONTWalks_inv (d : String) (env : SnmpEnv)
    (cols : List (GoStr × (SnmpPDU → ONTMetrics → ONTMetrics)))
    (onts : List (Int × ONTMetrics))
    (hcols : ∀ c ∈ cols, preservesKey c.2)
    (h : ∀ kp ∈ onts, ontKeyed kp) :
    ∀ res, runONTWalks d env cols onts = Except.ok res →
      ∀ kp ∈ res, ontKeyed kp := by
  induction cols generalizing onts with
  | nil =>
    intro res hres
    rw [runONTWalks] at hres
    simp only [Except.ok.injEq] at hres
    rw [← hres]
    exact h
  | cons c rest ih =>
    intro res hres
    obtain ⟨oid, setter⟩ := c
    rw [runONTWalks] at hres
    cases hw : env.walkResult oid with
    | error e =>
      rw [hw] at hres
      simp at hres
    | ok pdus =>
      rw [hw] at hres
      refine ih _ (fun c hc => hcols c (List.mem_cons_of_mem _ hc)) ?_ res hres
      exact ontWalkFold_inv d oid setter pdus onts
        (hcols (oid, setter) (List.mem_cons_self _ _)) h

/-- C6: `GetONTMetrics` ignores its `ponPortIndex` argument — for every
environment and every `ponPortIndex` it returns exactly the list that
`GetAllONTMetrics` (i.e. `ponPortIndex = 0`) returns, so no ONT is ever
filtered out by PON port; and every returned record carries the raw packed
index as both `PONPortIndex` and `ONTIndex`, with `SerialNumber` the
uppercase-hex rendering of that index. -/
theorem GetONTMetrics_ignores_pon_port :
    (∀ (d : String) (env : SnmpEnv) (p : Int),
      GetONTMetrics d env p = GetAllONTMetrics d env) ∧
    (∀ (d : String) (env : SnmpEnv) (p : Int) (onts : List ONTMetrics),
      GetONTMetrics d env p = Except.ok onts →
      ∀ o ∈ onts, o.ponPortIndex = o.ontIndex ∧
        o.serialNumber = intHex o.ontIndex) := by
  constructor
  · intro d env p
    rfl
  · intro d env p onts h o ho
    rw [GetONTMetrics] at h
    cases hr : runONTWalks d env ontWalkOrder [] with
    | error e =>
      rw [hr] at h
      simp at h
    | ok kps =>
      rw [hr] at h
      simp only [Except.ok.injEq] at h
      have hinv := runONTWalks_inv d env ontWalkOrder [] ontWalkOrder_preserves
        (by intro kp hkp; simp at hkp) kps hr
      rw [← h] at ho
      obtain ⟨kp, hkp, hsnd⟩ := List.mem_map.mp ho
      obtain ⟨h1, h2, h3⟩ := hinv kp hkp
      rw [← hsnd]
      exact ⟨by rw [h1, h2], by rw [h3, h2]⟩

/-- Concrete SNMP behaviour with one walked ONT row under the packed index
268435456. -/
def ontEnv : SnmpEnv where
  getResult := Except.ok []
  walkResult := fun oid =>
    if oid = OIDZTEONTOperStatus then
      Except.ok [⟨OIDZTEONTOperStatus ++ ".268435456".toList, GoVal.gint 1⟩]
    else Except.ok []

/-- Witness for the C6 theorem at a concrete environment and a nonzero
`ponPortIndex`. -/
theorem GetONTMetrics_ignores_pon_port_witness :
    GetONTMetrics "olt-6" ontEnv 7 = GetAllONTMetrics "olt-6" ontEnv ∧
    ∃ onts, GetONTMetrics "olt-6" ontEnv 7 = Except.ok onts ∧
      ∀ o ∈ onts, o.ponPortIndex = o.ontIndex ∧
        o.serialNumber = intHex o.ontIndex :=
  ⟨GetONTMetrics_ignores_pon_port.1 "olt-6" ontEnv 7,
   ⟨_, rfl, GetONTMetrics_ignores_pon_port.2 "olt-6" ontEnv 7 _ rfl⟩⟩

/-- Concrete SNMP behaviour for the PON-port walks: Tx power raw 25 and
Rx power raw -180 on port index 1. -/
def ponEnvPower : SnmpEnv where
  getResult := Except.ok []
  walkResult := fun oid =>
    if oid = OIDZTEPONPortTxPower then
      Except.ok [⟨OIDZTEPONPortTxPower ++ ".1".toList, GoVal.gint 25⟩]
    else if oid = OIDZTEPONPortRxPower then
      Except.ok [⟨OIDZTEPONPortRxPower ++ ".1".toList, GoVal.gint (-180)⟩]
    else Except.ok []

/-- The single port record produced by `ponEnvPower`. -/
def ponPowerPort : PONPortMetrics :=
  { deviceID := "olt-9"
    portIndex := 1
    txPowerDBm := ((25 : Int) : ℚ) / snmpPowerScale
    rxPowerDBm := ((-180 : Int) : ℚ) / snmpPowerScale }

/-- C9: every decoded PON-port or ONT Tx/Rx optical-power value is the raw
integer divided by 10 (0.1 dBm units to dBm); in particular a walk
returning raw 25 and raw -180 yields a port record with 2.5 dBm Tx power
and -18.0 dBm Rx power. -/
theorem opticalPower_scaling :
    (∀ (pdu : SnmpPDU) (p : PONPortMetrics),
      (setPONTxPower pdu p).txPowerDBm = (pduToInt pdu.value : ℚ) / 10 ∧
      (setPONRxPower pdu p).rxPowerDBm = (pduToInt pdu.value : ℚ) / 10) ∧
    (∀ (pdu : SnmpPDU) (o : ONTMetrics),
      (setONTTxPower pdu o).txPowerDBm = (pduToInt pdu.value : ℚ) / 10 ∧
      (setONTRxPower pdu o).rxPowerDBm = (pduToInt pdu.value : ℚ) / 10) ∧
    (GetPONPortMetrics "olt-9" ponEnvPower = Except.ok [ponPowerPort] ∧
      ponPowerPort.txPowerDBm = 5 / 2 ∧
      ponPowerPort.rxPowerDBm = -18) := by
  refine ⟨fun pdu p => ⟨rfl, rfl⟩, fun pdu o => ⟨rfl, rfl⟩, by rfl, ?_, ?_⟩
  · show ((25 : Int) : ℚ) / snmpPowerScale = 5 / 2
    rw [snmpPowerScale]
    norm_num
  · show ((-180 : Int) : ℚ) / snmpPowerScale = -18
    rw [snmpPowerScale]
    norm_num

/-- Device record: the fields read by the scheduler, from
`internal/device/model`. -/
structure Device where
  id : GoStr
  name : GoStr
  ipAddress : GoStr
  deviceType : GoStr
  protocol : GoStr
  enabled : Bool
deriving DecidableEq

/-- The `PollTask` value (dispatch timestamp omitted), from
`internal/common/model`. -/
structure PollTask where
  deviceID : GoStr
  ipAddress : GoStr
  deviceType : GoStr
  protocol : GoStr
deriving DecidableEq

/-- Model of `deviceService.ListDevices` over the registry's device list:
clamp `page` to at least 1 and `pageSize` into [1, 100] — anything outside
becomes 20 — then let the repository apply the offset and limit. -/
def ListDevices (devices : List Device) (page pageSize : Int) : List Device :=
  let page1 := if page < 1 then 1 else page
  let size1 := if pageSize < 1 ∨ 100 < pageSize then 20 else pageSize
  let offset := (page1 - 1) * size1
  let afterOffset := if 0 < offset then devices.drop offset.toNat else devices
  if 0 < size1 then afterOffset.take size1.toNat else afterOffset

/-- The `PollTask` built by `schedulePolls` for one device. -/
def mkPollTask (d : Device) : PollTask :=
  { deviceID := d.id
    ipAddress := d.ipAddress
    deviceType := d.deviceType
    protocol := d.protocol }

/-- Model of `Scheduler.schedulePolls`: fetch page 1 with requested page
size 1000 (which `ListDevices` clamps to 20), skip disabled devices, and
publish one task per remaining device. -/
def schedulePolls (devices : List Device) : List PollTask :=
  (ListDevices devices 1 1000).foldl
    (fun acc d => if d.enabled then acc ++ [mkPollTask d] else acc) []

/-- Twenty-one registered devices, all enabled, with distinct ids. -/
def schedDevices : List Device :=
  (List.range 21).map (fun i =>
    { id := List.replicate i 'x'
      name := List.replicate i 'x'
      ipAddress := List.replicate i 'x'
      deviceType := "router".toList
      protocol := "snmp".toList
      enabled := true })

/-- An enabled device. -/
def schedEnabledDev : Device :=
  { id := "a".toList, name := "a".toList, ipAddress := "a".toList,
    deviceType := "router".toList, protocol := "snmp".toList, enabled := true }

/-- A disabled device. -/
def schedDisabledDev : Device :=
  { id := "b".toList, name := "b".toList, ipAddress := "b".toList,
    deviceType := "router".toList, protocol := "snmp".toList, enabled := false }

/-- C4: with 21 devices all enabled, `schedulePolls` publishes only 20
tasks and none for the 21st device — the scheduler requests page size 1000
but `ListDevices` clamps any page size above 100 down to 20, so enabled
devices beyond the first 20 are silently never polled, contradicting
"fetch all devices, one task per enabled device".  The disabled-device
half of the claim does hold: a disabled device yields no task. -/
theorem schedulePolls_drops_enabled_device :
    schedDevices.length = 21 ∧
    (∀ d ∈ schedDevices, d.enabled = true) ∧
    (schedulePolls schedDevices).length = 20 ∧
    (∀ t ∈ schedulePolls schedDevices, t.deviceID ≠ List.replicate 20 'x') ∧
    schedulePolls [schedEnabledDev, schedDisabledDev] = [mkPollTask schedEnabledDev] := by
  refine ⟨by decide, by decide, by decide, by decide, by decide⟩

/-- Dynamic metric value (`interface` value in a Go metrics map), tagged
with its Go runtime type. -/
inductive MValue where
  | float (q : ℚ)
  | int (n : Int)
  | int64 (n : Int)
  | bool (b : Bool)
  | str (s : GoStr)
deriving DecidableEq

/-- Go map assignment `m[k] = v` on an association-list model of the map:
replace the bound value, or append a new binding. -/
def insertVal (m : List (GoStr × MValue)) (k : GoStr) (v : MValue) :
    List (GoStr × MValue) :=
  if (m.lookup k).isSome then
    m.map (fun kv => if kv.1 = k then (kv.1, v) else kv)
  else m ++ [(k, v)]

/-- Environment of one `processTask` call: the Mikrotik adapter result
(`none` models `ok = false`, which carries no metrics), the ping adapter's
returned duration and success flag, and the measured total poll duration. -/
structure PollEnv where
  mikrotikResult : Option (List (GoStr × MValue))
  pingRTTNanos : Int
  pingSuccess : Bool
  pollDurationNanos : Int

/-- A time-series point as handed to the Influx write API. -/
structure InfluxPoint where
  measurement : GoStr
  tags : List (GoStr × GoStr)
  fields : List (GoStr × MValue)

/-- A `Metric` message as published on the metric bus (device name and
tags are unset by the worker). -/
structure MetricMsg where
  deviceID : GoStr
  ipAddress : GoStr
  values : List (GoStr × MValue)

/-- Model of `Worker.processTask`: select the adapter by the task's
protocol, build the Influx point with fields `rtt_ms`, `success`,
`poll_duration_ms`, then build the bus `Metric` whose values map holds
`rtt_ms`, `success` and the adapter-specific fields, and publish it.
`rtt.Microseconds()` and `duration.Milliseconds()` are Go's truncated
integer divisions of nanoseconds. -/
def processTask (task : PollTask) (env : PollEnv) : InfluxPoint × List MetricMsg :=
  let mikro := task.protocol = "mikrotik_api".toList
  let success := if mikro then env.mikrotikResult.isSome else env.pingSuccess
  let metrics : List (GoStr × MValue) :=
    if mikro then env.mikrotikResult.getD [] else []
  let rttMs : ℚ := ((Int.tdiv env.pingRTTNanos 1000 : Int) : ℚ) / 1000
  let durMs : ℚ := ((Int.tdiv env.pollDurationNanos 1000000 : Int) : ℚ)
  let point : InfluxPoint :=
    { measurement := "device_poll".toList
      tags := [("device_id".toList, task.deviceID),
               ("ip_address".toList, task.ipAddress),
               ("device_type".toList, task.deviceType)]
      fields := [("rtt_ms".toList, MValue.float rttMs),
                 ("success".toList, MValue.bool success),
                 ("poll_duration_ms".toList, MValue.float durMs)] }
  let values0 : List (GoStr × MValue) :=
    [("rtt_ms".toList, MValue.float rttMs),
     ("success".toList, MValue.bool success)]
  let values := metrics.foldl (fun acc kv => insertVal acc kv.1 kv.2) values0
  (point, [{ deviceID := task.deviceID, ipAddress := task.ipAddress,
             values := values }])

/-- A poll task for a non-Mikrotik device (default ping adapter). -/
def pingTask : PollTask :=
  { deviceID := "dev-1".toList
    ipAddress := "10.0.0.1".toList
    deviceType := "router".toList
    protocol := "snmp".toList }

/-- Environment of an unreachable device: the ping fails. -/
def downEnv : PollEnv :=
  { mikrotikResult := none
    pingRTTNanos := 0
    pingSuccess := false
    pollDurationNanos := 5000000 }

/-- C3 counterexample: for a concrete task the published Metric's values
map is not the same value set as the written time-series point — the point
carries `poll_duration_ms` but the Metric does not. -/
theorem processTask_values_not_point_fields :
    ∃ m, (processTask pingTask downEnv).2 = [m] ∧
      m.values.lookup "poll_duration_ms".toList = none ∧
      ((processTask pingTask downEnv).1.fields.lookup
        "poll_duration_ms".toList).isSome = true ∧
      m.values.map Prod.fst ≠ (processTask pingTask downEnv).1.fields.map Prod.fst := by
  refine ⟨_, rfl, rfl, rfl, by decide⟩

/-- C3 (amended): every processed task publishes exactly one Metric —
with `success = false` on an unreachable device rather than no Metric —
whose values map holds `rtt_ms` and `success` plus the adapter-specific
fields; the time-series point's fields are exactly `rtt_ms`, `success`,
`poll_duration_ms`, so the two value sets differ: the Metric lacks
`poll_duration_ms` and the point lacks the adapter fields. -/
theorem processTask_metric_contract (task : PollTask) (env : PollEnv) :
    ((processTask task env).2.length = 1) ∧
    ((processTask task env).1.fields.map Prod.fst =
      ["rtt_ms".toList, "success".toList, "poll_duration_ms".toList]) ∧
    (∀ m ∈ (processTask task env).2,
      m.values =
        (if task.protocol = "mikrotik_api".toList then env.mikrotikResult.getD [] else []).foldl
          (fun acc kv => insertVal acc kv.1 kv.2)
          [("rtt_ms".toList,
            MValue.float (((Int.tdiv env.pingRTTNanos 1000 : Int) : ℚ) / 1000)),
           ("success".toList,
            MValue.bool (if task.protocol = "mikrotik_api".toList
              then env.mikrotikResult.isSome else env.pingSuccess))]) ∧
    (task.protocol ≠ "mikrotik_api".toList →
      ∀ m ∈ (processTask task env).2,
        m.values =
          [("rtt_ms".toList,
            MValue.float (((Int.tdiv env.pingRTTNanos 1000 : Int) : ℚ) / 1000)),
           ("success".toList, MValue.bool env.pingSuccess)] ∧
        m.values.lookup "poll_duration_ms".toList = none) := by
  refine ⟨rfl, rfl, ?_, ?_⟩
  · intro m hm
    simp only [processTask, List.mem_singleton] at hm
    rw [hm]
  · intro hproto m hm
    simp only [processTask, List.mem_singleton] at hm
    have hfalse : (task.protocol = "mikrotik_api".toList) = False :=
      eq_false hproto
    rw [hm]
    simp only [hfalse, if_false]
    constructor
    · rfl
    · rfl

/-- Witness for the amended C3 theorem at a concrete unreachable device. -/
theorem processTask_metric_contract_witness :
    ∀ m ∈ (processTask pingTask downEnv).2,
      m.values =
        [("rtt_ms".toList,
          MValue.float (((Int.tdiv (0 : Int) 1000 : Int) : ℚ) / 1000)),
         ("success".toList, MValue.bool false)] ∧
      m.values.lookup "poll_duration_ms".toList = none :=
  (processTask_metric_contract pingTask downEnv).2.2.2 (by decide)

/-- The `Rule` type from `internal/alert`: optional device scope (empty string means
all devices), metric name, comparison operator, numeric threshold. -/
structure Rule where
  id : GoStr
  deviceID : GoStr := []
  metricName : GoStr
  operator : GoStr
  threshold : ℚ
  severity : GoStr
  description : GoStr
deriving DecidableEq

/-- Model of `toFloat` from `internal/alert/engine.go`: `float64` and `int`
pass through, booleans coerce to 1.0/0.0, every other dynamic type —
including `int64` and strings — is rejected. -/
def toFloat : MValue → Option ℚ
  | .float v => some v
  | .int n => some (n : ℚ)
  | .bool b => some (if b then 1 else 0)
  | _ => none

/-- The operator switch inside `evaluate`: an unknown operator never
triggers. -/
def ruleTriggered (rule : Rule) (floatVal : ℚ) : Bool :=
  if rule.operator = ">".toList then decide (floatVal > rule.threshold)
  else if rule.operator = "<".toList then decide (floatVal < rule.threshold)
  else if rule.operator = "=".toList then decide (floatVal = rule.threshold)
  else if rule.operator = ">=".toList then decide (floatVal ≥ rule.threshold)
  else if rule.operator = "<=".toList then decide (floatVal ≤ rule.threshold)
  else false

/-- The body of the rule loop in `Engine.evaluate` for one rule: skip when
the rule is scoped to a different device, when the named value is absent,
or when the value cannot be coerced; otherwise apply the operator and, on
trigger, invoke the notifier once (appended to the invocation list). -/
def evalStep (metric : MetricMsg) (acc : List (Rule × ℚ)) (rule : Rule) :
    List (Rule × ℚ) :=
  if rule.deviceID ≠ [] ∧ rule.deviceID ≠ metric.deviceID then acc
  else
    match metric.values.lookup rule.metricName with
    | none => acc
    | some v =>
      match toFloat v with
      | none => acc
      | some floatVal =>
        if ruleTriggered rule floatVal then acc ++ [(rule, floatVal)]
        else acc

/-- Model of `Engine.evaluate`: run the rule loop over the rule set; the
result lists the notifier invocations as (rule, coerced value) pairs in
order. -/
def evaluate (rules : List Rule) (metric : MetricMsg) : List (Rule × ℚ) :=
  rules.foldl (evalStep metric) []

/-- Per-rule restatement of the spec's evaluation contract: the notifier
fires for a rule exactly when the scope matches, the named value is
present and coercible, and the operator comparison holds. -/
def evalRule (metric : MetricMsg) (rule : Rule) : Option (Rule × ℚ) :=
  if rule.deviceID ≠ [] ∧ rule.deviceID ≠ metric.deviceID then none
  else
    match metric.values.lookup rule.metricName with
    | none => none
    | some v =>
      match toFloat v with
      | none => none
      | some floatVal =>
        if ruleTriggered rule floatVal then some (rule, floatVal) else none

theorem evalStep_eq (metric : MetricMsg) (acc : List (Rule × ℚ)) (rule : Rule) :
    evalStep metric acc rule = acc ++ (evalRule metric rule).toList := by
  unfold evalStep evalRule
  by_cases hscope : rule.deviceID ≠ [] ∧ rule.deviceID ≠ metric.deviceID
  · rw [if_pos hscope, if_pos hscope]
    simp
  · rw [if_neg hscope, if_neg hscope]
    rcases hv : metric.values.lookup rule.metricName with _ | v
    · simp
    · simp only
      rcases hf : toFloat v with _ | f
      · simp
      · simp only
        by_cases htrig : ruleTriggered rule f = true
        · simp [htrig]
        · simp [htrig]

theorem foldl_evalStep (metric : MetricMsg) (rules : List Rule)
    (acc : List (Rule × ℚ)) :
    rules.foldl (evalStep metric) acc = acc ++ rules.filterMap (evalRule metric) := by
  induction rules generalizing acc with
  | nil => simp
  | cons r rest ih =>
    rw [List.foldl_cons, evalStep_eq, ih, List.filterMap_cons]
    cases evalRule metric r with
    | none => simp
    | some p => simp

/-- The two hardcoded rules installed by `NewEngine`. -/
def engineRules : List Rule :=
  [{ id := "rule-1".toList
     metricName := "rtt_ms".toList
     operator := ">".toList
     threshold := 100
     severity := "warning".toList
     description := "High Latency (>100ms)".toList },
   { id := "rule-2".toList
     metricName := "success".toList
     operator := "=".toList
     threshold := 0
     severity := "critical".toList
     description := "Device Down".toList }]

/-- The metric from the spec's first alert example:
`{values: {rtt_ms: 150.0, success: true}}`. -/
def metricHighLatency : MetricMsg :=
  { deviceID := "dev-1".toList
    ipAddress := "10.0.0.1".toList
    values := [("rtt_ms".toList, MValue.float 150),
               ("success".toList, MValue.bool true)] }

/-- The metric from the spec's second alert example:
`{values: {success: false}}`. -/
def metricDown : MetricMsg :=
  { deviceID := "dev-1".toList
    ipAddress := "10.0.0.1".toList
    values := [("success".toList, MValue.bool false)] }

/-- C5: `evaluate` fires the notifier exactly once per (metric, rule) pair
whose device scope is empty or matches, whose named value is present and
coercible to float (booleans becoming 1.0/0.0), and whose operator
comparison against the threshold holds — captured by the per-rule
`evalRule` characterization; in particular `rtt_ms = 150` against the
`> 100` rule fires exactly once, and `success = false` against the `= 0`
rule fires (boolean coerced to 0.0). -/
theorem evaluate_correct :
    (∀ (rules : List Rule) (metric : MetricMsg),
      evaluate rules metric = rules.filterMap (evalRule metric)) ∧
    (toFloat (MValue.bool true) = some 1 ∧ toFloat (MValue.bool false) = some 0) ∧
    ((evaluate engineRules metricHighLatency).map (fun rv => rv.1.id) =
      ["rule-1".toList]) ∧
    ((evaluate engineRules metricDown).map (fun rv => rv.1.id) =
      ["rule-2".toList]) := by
  refine ⟨?_, ⟨rfl, rfl⟩, by decide, by decide⟩
  intro rules metric
  rw [evaluate, foldl_evalStep]
  rfl
